import Mathlib

/-!
Shallow embedding of `homework.py` (the polling/notification bot) and proofs
about its behaviour.

Conventions of the embedding:
* Python values appearing in API responses are modelled by the inductive `Py`
  (ints, strings, lists, string-keyed dicts, `None`).
* Python exceptions are modelled by `Exc` (a kind plus the message string);
  a function that can raise returns `Except Exc _`.
* Effects of one iteration of `main`'s `while True` loop are captured by
  `mainCycle`, a pure step function from the loop state (`sended_message`,
  `timestamp`) and the cycle's environment inputs (HTTP result, outcome of
  each attempted Telegram send, current wall-clock time) to the next state
  plus observable outputs (send attempts, log records, sleep duration).
-/

/-- Python values as they occur in decoded JSON API responses. -/
inductive Py where
  | int : Int → Py
  | str : String → Py
  | list : List Py → Py
  | dict : List (String × Py) → Py
  | none : Py
deriving Repr

/-- Lookup in a Python dict (first binding of the key wins). -/
def dictGet (kvs : List (String × Py)) (k : String) : Option Py :=
  (kvs.find? (fun kv => kv.1 == k)).map (fun kv => kv.2)

/-- Python truthiness: `None`, `0`, empty string/list/dict are falsy. -/
def Py.truthy : Py → Bool
  | .int i => i != 0
  | .str s => !s.isEmpty
  | .list xs => !xs.isEmpty
  | .dict kvs => !kvs.isEmpty
  | .none => false

/-- The ASCII single-quote character used by Python `repr` of strings. -/
def pyQuote : String := String.singleton (Char.ofNat 39)

mutual
/-- Python `repr` of a value (string-escaping inside containers is not
reproduced; no claim evaluates it on strings needing escapes). -/
def pyReprCore : Py → String
  | .int i => toString i
  | .str s => pyQuote ++ s ++ pyQuote
  | .list xs => "[" ++ pyReprSeq xs ++ "]"
  | .dict kvs => "\x7b" ++ pyReprKVSeq kvs ++ "\x7d"
  | .none => "None"

def pyReprSeq : List Py → String
  | [] => ""
  | [x] => pyReprCore x
  | x :: y :: xs => pyReprCore x ++ ", " ++ pyReprSeq (y :: xs)

def pyReprKVSeq : List (String × Py) → String
  | [] => ""
  | [kv] => pyQuote ++ kv.1 ++ pyQuote ++ ": " ++ pyReprCore kv.2
  | kv :: y :: xs => pyQuote ++ kv.1 ++ pyQuote ++ ": " ++ pyReprCore kv.2 ++ ", " ++ pyReprKVSeq (y :: xs)
end

/-- Python `str` of a value (as used by f-string interpolation). -/
def pyStr : Py → String
  | .str s => s
  | v => pyReprCore v

/-- Python's substring test `needle in hay` on strings. -/
def pyInStr (needle hay : String) : Bool :=
  hay.data.tails.any (fun t => needle.data.isPrefixOf t)

/-- Exception classes raised or caught anywhere in `homework.py`. -/
inductive ExcKind where
  | typeError
  | keyError
  | valueError
  | indexError
  | attributeError
  | environmentError
  | connectionError
  | apiHomeworkError
  | apiException
  | requestException
  | apiTelegramException
deriving Repr, DecidableEq

/-- A raised Python exception: its class and its message argument. -/
structure Exc where
  kind : ExcKind
  msg : String
deriving Repr, DecidableEq

/-- Python `str(exception)` as interpolated into f-strings: `KeyError` renders
its message argument through `repr`, the other classes used here render it
verbatim. -/
def excStr (e : Exc) : String :=
  match e.kind with
  | .keyError => pyQuote ++ e.msg ++ pyQuote
  | _ => e.msg

/-- `response[k]`: `TypeError` on a non-dict, `KeyError` on a missing key. -/
def pySubscript (v : Py) (k : String) : Except Exc Py :=
  match v with
  | .dict kvs =>
    match dictGet kvs k with
    | some x => .ok x
    | Option.none => .error ⟨.keyError, k⟩
  | _ => .error ⟨.typeError, "object is not subscriptable"⟩

/-- `xs[i]` on a Python value: `IndexError` past the end, `TypeError` on a
non-list. -/
def pyIndex (v : Py) (i : Nat) : Except Exc Py :=
  match v with
  | .list xs =>
    match xs.get? i with
    | some x => .ok x
    | Option.none => .error ⟨.indexError, "list index out of range"⟩
  | _ => .error ⟨.typeError, "object is not subscriptable"⟩

/-- `v.get k default`: `AttributeError` when `v` is not a dict. -/
def pyDictGetDefault (v : Py) (k : String) (default : Py) : Except Exc Py :=
  match v with
  | .dict kvs =>
    match dictGet kvs k with
    | some x => .ok x
    | Option.none => .ok default
  | _ => .error ⟨.attributeError, "object has no attribute get"⟩

/-- `v.get k` (default `None`): `AttributeError` when `v` is not a dict. -/
def pyDictGetNone (v : Py) (k : String) : Except Exc Py :=
  pyDictGetDefault v k Py.none

/-- `RETRY_PERIOD = 600`. -/
def RETRY_PERIOD : Nat := 600

/-- `HOMEWORK_NUMBER = 0`. -/
def HOMEWORK_NUMBER : Nat := 0

/-- `HOMEWORK_VERDICTS`: the closed status → verdict-text table. -/
def HOMEWORK_VERDICTS : List (String × String) :=
  [("approved", "Работа проверена: ревьюеру всё понравилось. Ура!"),
   ("reviewing", "Работа взята на проверку ревьюером."),
   ("rejected", "Работа проверена: у ревьюера есть замечания.")]

/-- The three environment variables read at module import. `none` models an
unset variable, `some ""` a set-but-empty one. -/
structure EnvConfig where
  PRACTICUM_TOKEN : Option String
  TELEGRAM_TOKEN : Option String
  TELEGRAM_CHAT_ID : Option String
deriving Repr, DecidableEq

/-- Python truthiness test `not token` used in `check_tokens`. -/
def tokenMissing : Option String → Bool
  | Option.none => true
  | some s => s.isEmpty

/-- The `missing_tokens` list comprehension of `check_tokens`, in source
order. -/
def missing_tokens (env : EnvConfig) : List String :=
  (([("PRACTICUM_TOKEN", env.PRACTICUM_TOKEN),
     ("TELEGRAM_TOKEN", env.TELEGRAM_TOKEN),
     ("TELEGRAM_CHAT_ID", env.TELEGRAM_CHAT_ID)].filter
      (fun nt => tokenMissing nt.2)).map (fun nt => nt.1))

/-- `check_tokens`: raises `EnvironmentError` naming every missing variable,
returns `True` when all are present. -/
def check_tokens (env : EnvConfig) : Except Exc Bool :=
  let missing := missing_tokens env
  if missing.isEmpty then
    .ok true
  else
    .error ⟨.environmentError,
      "Отсутствуют обязательные переменные окружения: "
        ++ String.intercalate ", " missing ++ "."⟩

/-- Log levels used by `homework.py`. -/
inductive LogLevel where
  | debug
  | info
  | error
  | critical
deriving Repr, DecidableEq

/-- One emitted log record. -/
structure LogEvent where
  level : LogLevel
  msg : String
deriving Repr, DecidableEq

/-- Outcome of one `bot.send_message` call, supplied by the environment:
either delivered, or one of the two exception classes `send_message`
catches (`ApiTelegramException` is a subclass of `ApiException`, so it is
covered by the first arm). -/
inductive SendOutcome where
  | ok
  | apiException (emsg : String)
  | requestException (emsg : String)
deriving Repr, DecidableEq

/-- `send_message`: attempts the Telegram send and swallows both failure
classes, only logging. It returns no success indication to the caller —
its Lean type is total (`List LogEvent`), mirroring that no exception
escapes it. -/
def send_message (outcome : SendOutcome) (message : String) : List LogEvent :=
  match outcome with
  | .ok => [⟨.debug, "Сообщение отправлено успешно: " ++ message ++ "."⟩]
  | .apiException e => [⟨.error, "Возникла ошибка API Telebot: " ++ e⟩]
  | .requestException e => [⟨.error, "Ошибка запроса: " ++ e⟩]

/-- Result of the `requests.get` call inside `get_api_answer`, supplied by
the environment: either the request raised, or a response arrived with a
status code and a body that decodes to `some` Python value (or `none` when
it is not valid JSON). -/
inductive HttpResult where
  | requestException (emsg : String)
  | response (status : Nat) (body : Option Py)
deriving Repr

/-- `get_api_answer`: wraps a transport failure in `ConnectionError`, a
non-200 status in `ApiHomeworkError`, an undecodable body in `ValueError`;
otherwise returns the decoded data. (`f-string` rendering of
`HTTPStatus.OK` is written as `200`, its Python ≥ 3.11 rendering.) -/
def get_api_answer (http : HttpResult) : Except Exc Py :=
  match http with
  | .requestException e =>
    .error ⟨.connectionError, "Ошибка запроса к API. Получена ошибка: " ++ e ++ "."⟩
  | .response status body =>
    if status ≠ 200 then
      .error ⟨.apiHomeworkError,
        "Ошибка HTTP: статус-код - " ++ toString status ++ ". Ожидался статус: 200"⟩
    else
      match body with
      | some data => .ok data
      | Option.none => .error ⟨.valueError, "Ошибка декодирования JSON из ответа API"⟩

/-- `check_response`: `TypeError` on a non-dict, `KeyError` naming the first
missing key of `{homeworks, current_date}` (the Python source iterates a
set literal whose order is unspecified; the embedding fixes the order
`homeworks`, `current_date`), `TypeError` when `homeworks` is not a list,
`ValueError` when the list is empty; otherwise returns the list. -/
def check_response (response : Py) : Except Exc (List Py) :=
  match response with
  | .dict kvs =>
    if (dictGet kvs "homeworks").isNone then
      .error ⟨.keyError, "Обязательный ключ `homeworks` отсутсвует в словаре API."⟩
    else if (dictGet kvs "current_date").isNone then
      .error ⟨.keyError, "Обязательный ключ `current_date` отсутсвует в словаре API."⟩
    else
      match dictGet kvs "homeworks" with
      | some (.list homeworks) =>
        if homeworks.isEmpty then
          .error ⟨.valueError, "Список домашек пуст."⟩
        else
          .ok homeworks
      | _ => .error ⟨.typeError, "Значение под ключом `homeworks` должно быть списком!"⟩
  | _ => .error ⟨.typeError, "Ожидался словарь с данными API."⟩

/-- `status in HOMEWORK_VERDICTS` for an optional Python value: only a string
equal to one of the table's keys is a member. -/
def statusInVerdicts : Option Py → Bool
  | some (.str s) => (HOMEWORK_VERDICTS.lookup s).isSome
  | _ => false

/-- `parse_status`: `ValueError` on a falsy record, `AttributeError` on a
truthy non-dict (Python's `homework.get`), `KeyError` when the name is
absent or the status is outside `HOMEWORK_VERDICTS`; otherwise the
formatted notification text. -/
def parse_status (homework : Py) : Except Exc String :=
  if Py.truthy homework = false then
    .error ⟨.valueError, "Пустой ответ от API Яндекс Домашка."⟩
  else
    match homework with
    | .dict kvs =>
      let homework_name := dictGet kvs "homework_name"
      let homework_status := dictGet kvs "status"
      if homework_name.isNone || !statusInVerdicts homework_status then
        .error ⟨.keyError, "Неверный формат данных для домашней работы."⟩
      else
        match homework_name, homework_status with
        | some hn, some (.str s) =>
          match HOMEWORK_VERDICTS.lookup s with
          | some verdict =>
            .ok ("Изменился статус проверки работы \"" ++ pyStr hn ++ "\". " ++ verdict)
          | Option.none =>
            .error ⟨.keyError, "Неверный формат данных для домашней работы."⟩
        | _, _ => .error ⟨.keyError, "Неверный формат данных для домашней работы."⟩
    | _ => .error ⟨.attributeError, "object has no attribute get"⟩

/-- The two module-level mutable variables of `main`: `sended_message`
(initially `''`) and `timestamp` (initially `int(time.time())`); after the
first cycle `timestamp` holds whatever `response.get('current_date', ...)`
returned, so it is a `Py` value. -/
structure LoopState where
  sended_message : String
  timestamp : Py
deriving Repr

/-- Environment inputs consumed by one iteration of the `while True` loop. -/
structure CycleInput where
  http : HttpResult
  sendOutcome : SendOutcome
  diagSendOutcome : SendOutcome
  now : Int
deriving Repr

/-- One observed `bot.send_message` attempt: the text handed to
`send_message` and the outcome the environment produced for it. -/
structure SendAttempt where
  msg : String
  outcome : SendOutcome
deriving Repr, DecidableEq

/-- Result of the `try:` block of one loop iteration when no exception is
raised: next state, the homework-message send attempts, and log records. -/
structure TryOut where
  state : LoopState
  sends : List SendAttempt
  logs : List LogEvent
deriving Repr

/-- The `logger.info` text of the duplicate-suppression branch. -/
def dupLogMsg (message : String) : String :=
  "Отмена отправки сообщения, данное сообщение "
    ++ "уже было отправлено: \n\"" ++ message ++ "\""

/-- The `try:` block of `main`'s loop body (lines 133-149): fetch, validate,
take the newest record, format it, send it unless its text occurs inside
`sended_message` (Python's substring `in`), then advance `timestamp` to
`response.get('current_date', int(time.time()))`. The `if not homework:
continue` guard is kept although `check_response` has already rejected an
empty list. -/
def tryBody (st : LoopState) (inp : CycleInput) : Except Exc TryOut :=
  match get_api_answer inp.http with
  | .error e => .error e
  | .ok response =>
    match check_response response with
    | .error e => .error e
    | .ok _ =>
      match pySubscript response "homeworks" with
      | .error e => .error e
      | .ok homework =>
        if Py.truthy homework = false then
          .ok ⟨st, [], [⟨.debug, "Список с домашними заданиями пуст."⟩]⟩
        else
          match pyIndex homework HOMEWORK_NUMBER with
          | .error e => .error e
          | .ok hw0 =>
            match parse_status hw0 with
            | .error e => .error e
            | .ok message =>
              let step : String × List SendAttempt × List LogEvent :=
                if pyInStr message st.sended_message then
                  (st.sended_message, [], [⟨.info, dupLogMsg message⟩])
                else
                  (message, [⟨message, inp.sendOutcome⟩],
                    send_message inp.sendOutcome message)
              match pyDictGetDefault response "current_date" (Py.int inp.now) with
              | .error e => .error e
              | .ok ts => .ok ⟨⟨step.1, ts⟩, step.2.1, step.2.2⟩

/-- Full observable outcome of one loop iteration. -/
structure CycleOutput where
  state : LoopState
  homeworkSends : List SendAttempt
  diagSends : List SendAttempt
  logs : List LogEvent
  slept : Nat
deriving Repr

/-- `f'Сбой в работе программы: {error}'`, the diagnostic text of the
generic `except Exception` handler. -/
def diagMsg (e : Exc) : String :=
  "Сбой в работе программы: " ++ excStr e

/-- The `logger.info` record emitted by the `finally:` block. -/
def waitLog : LogEvent :=
  ⟨.info, "Ожидание следующего запроса -- " ++ toString RETRY_PERIOD ++ " секунд."⟩

/-- One iteration of `main`'s `while True` loop, `except` handlers and
`finally:` block included. An `ApiTelegramException` is only logged; any
other exception is rendered as `f'Сбой в работе программы: {error}'`,
logged, and sent to the chat unless that text occurs inside
`sended_message` (the diagnostic send goes through `send_message`, which
swallows its own failures, so the inner `except ApiTelegramException` is
unreachable). The `finally:` block logs and sleeps `RETRY_PERIOD` seconds
on every path. -/
def mainCycle (st : LoopState) (inp : CycleInput) : CycleOutput :=
  let handled : LoopState × List SendAttempt × List SendAttempt × List LogEvent :=
    match tryBody st inp with
    | .ok t => (t.state, t.sends, [], t.logs)
    | .error e =>
      if e.kind = ExcKind.apiTelegramException then
        (st, [], [], [⟨.error, "Ошибка при отправке сообщения пользователю. (main)"⟩])
      else
        let message := diagMsg e
        if pyInStr message st.sended_message then
          (st, [], [], [⟨.error, message⟩])
        else
          (⟨message, st.timestamp⟩, [], [⟨message, inp.diagSendOutcome⟩],
            ⟨.error, message⟩ :: send_message inp.diagSendOutcome message)
  { state := handled.1
    homeworkSends := handled.2.1
    diagSends := handled.2.2.1
    logs := handled.2.2.2 ++ [waitLog]
    slept := RETRY_PERIOD }

/-- Runs the loop for a finite prefix of cycles, threading the state. -/
def runCycles : LoopState → List CycleInput → LoopState × List CycleOutput
  | st, [] => (st, [])
  | st, i :: is =>
    let o := mainCycle st i
    let (fin, os) := runCycles o.state is
    (fin, o :: os)

/-- `main` observed for a finite prefix of cycles: `check_tokens` first (its
`EnvironmentError` aborts before any cycle), then the loop from
`sended_message = ''` and `timestamp = int(time.time())`. -/
def mainProgram (env : EnvConfig) (now0 : Int) (inps : List CycleInput) :
    Except Exc (LoopState × List CycleOutput) :=
  match check_tokens env with
  | .error e => .error e
  | .ok _ => .ok (runCycles ⟨"", Py.int now0⟩ inps)

/-! ### Support lemmas -/

/-- Python's `in` on strings is the list-infix relation on their characters. -/
lemma pyInStr_substring_iff (a b : String) : pyInStr a b = true ↔ a.data <:+: b.data := by
  unfold pyInStr
  rw [List.any_eq_true]
  constructor
  · rintro ⟨t, ht, hp⟩
    rw [List.mem_tails] at ht
    rw [List.isPrefixOf_iff_prefix] at hp
    exact List.infix_iff_prefix_suffix.mpr ⟨t, hp, ht⟩
  · intro h
    rcases List.infix_iff_prefix_suffix.mp h with ⟨t, hp, ht⟩
    exact ⟨t, (List.mem_tails _ _).mpr ht, List.isPrefixOf_iff_prefix.mpr hp⟩

/-- Every string occurs inside itself. -/
lemma pyInStr_self (a : String) : pyInStr a a = true := by
  rw [pyInStr_substring_iff]

/-- A string occurs inside any surrounding concatenation. -/
lemma pyInStr_append (pre a post : String) : pyInStr a (pre ++ a ++ post) = true := by
  rw [pyInStr_substring_iff, String.data_append, String.data_append]
  exact ⟨pre.data, post.data, by simp⟩

/-- A transport failure on fetch makes the `try:` block raise the
`ConnectionError` that `get_api_answer` wraps it in. -/
lemma tryBody_fetch_error (st : LoopState) (inp : CycleInput) (emsg : String)
    (hhttp : inp.http = HttpResult.requestException emsg) :
    tryBody st inp =
      .error ⟨.connectionError, "Ошибка запроса к API. Получена ошибка: " ++ emsg ++ "."⟩ := by
  simp [tryBody, get_api_answer, hhttp]

/-- On a 200 dict response whose `homeworks` is a nonempty list, whose
`current_date` is present, and whose newest record formats successfully,
the `try:` block returns: suppress or send by the substring test, then
advance the timestamp to `current_date`. -/
lemma tryBody_success (st : LoopState) (inp : CycleInput)
    (kvs : List (String × Py)) (h : Py) (hs : List Py) (cd : Py) (m : String)
    (hhttp : inp.http = HttpResult.response 200 (some (Py.dict kvs)))
    (hhw : dictGet kvs "homeworks" = some (Py.list (h :: hs)))
    (hcd : dictGet kvs "current_date" = some cd)
    (hm : parse_status h = .ok m) :
    tryBody st inp =
      if pyInStr m st.sended_message then
        .ok ⟨⟨st.sended_message, cd⟩, [], [⟨.info, dupLogMsg m⟩]⟩
      else
        .ok ⟨⟨m, cd⟩, [⟨m, inp.sendOutcome⟩], send_message inp.sendOutcome m⟩ := by
  simp [tryBody, hhttp, get_api_answer, check_response, pySubscript, pyIndex,
    pyDictGetDefault, HOMEWORK_NUMBER, Py.truthy, hhw, hcd, hm]
  split <;> rfl

/-- On a 200 dict response with both keys present but an empty `homeworks`
list, the `try:` block raises the empty-list `ValueError`. -/
lemma tryBody_empty_list (st : LoopState) (inp : CycleInput)
    (kvs : List (String × Py)) (cd : Py)
    (hhttp : inp.http = HttpResult.response 200 (some (Py.dict kvs)))
    (hhw : dictGet kvs "homeworks" = some (Py.list []))
    (hcd : dictGet kvs "current_date" = some cd) :
    tryBody st inp = .error ⟨.valueError, "Список домашек пуст."⟩ := by
  simp [tryBody, hhttp, get_api_answer, check_response, hhw, hcd]

/-- A cycle whose `try:` block succeeds: no diagnostic send, and the
`finally:` block appends the wait log and the sleep. -/
lemma mainCycle_ok (st : LoopState) (inp : CycleInput) (t : TryOut)
    (h : tryBody st inp = .ok t) :
    mainCycle st inp = ⟨t.state, t.sends, [], t.logs ++ [waitLog], RETRY_PERIOD⟩ := by
  simp [mainCycle, h]

/-- A cycle whose `try:` block raises a non-Telegram exception whose
diagnostic text is not yet inside `sended_message`: the diagnostic is
logged, sent once, and recorded; the timestamp is untouched. -/
lemma mainCycle_error_fresh (st : LoopState) (inp : CycleInput) (e : Exc)
    (h : tryBody st inp = .error e) (hk : e.kind ≠ ExcKind.apiTelegramException)
    (hfresh : pyInStr (diagMsg e) st.sended_message = false) :
    mainCycle st inp =
      ⟨⟨diagMsg e, st.timestamp⟩, [], [⟨diagMsg e, inp.diagSendOutcome⟩],
        (⟨.error, diagMsg e⟩ :: send_message inp.diagSendOutcome (diagMsg e)) ++ [waitLog],
        RETRY_PERIOD⟩ := by
  simp [mainCycle, h, hk, hfresh]

/-- A cycle whose `try:` block raises a non-Telegram exception whose
diagnostic text already occurs inside `sended_message`: logged but not
sent, state untouched. -/
lemma mainCycle_error_dup (st : LoopState) (inp : CycleInput) (e : Exc)
    (h : tryBody st inp = .error e) (hk : e.kind ≠ ExcKind.apiTelegramException)
    (hdup : pyInStr (diagMsg e) st.sended_message = true) :
    mainCycle st inp = ⟨st, [], [], [⟨.error, diagMsg e⟩, waitLog], RETRY_PERIOD⟩ := by
  simp [mainCycle, h, hk, hdup]

/-! ### Concrete fixtures -/

/-- A homework record with name `X` and status `approved`. -/
def recX : Py := Py.dict [("homework_name", Py.str "X"), ("status", Py.str "approved")]

/-- The text `parse_status` formats for `recX`. -/
def msgX : String :=
  "Изменился статус проверки работы \"X\". Работа проверена: ревьюеру всё понравилось. Ура!"

/-- Key/value pairs of a well-shaped response carrying `recX`. -/
def respKvs (cd : Int) : List (String × Py) :=
  [("homeworks", Py.list [recX]), ("current_date", Py.int cd)]

/-- A well-shaped response carrying `recX`. -/
def respX (cd : Int) : Py := Py.dict (respKvs cd)

/-- A cycle input delivering `respX cd` with the given send outcomes. -/
def inpOk (cd : Int) (o d : SendOutcome) (now : Int) : CycleInput :=
  ⟨.response 200 (some (respX cd)), o, d, now⟩

/-- Fresh loop state shortly after startup. -/
def stA : LoopState := ⟨"", Py.int 1700000000⟩

example : parse_status recX = .ok msgX := rfl

/-! ### C9 -/

/-- C9: every loop cycle — delivered, suppressed, empty result, or any
raised error — ends by sleeping the fixed `RETRY_PERIOD` of 600 seconds
before the next poll, because the sleep sits in the guaranteed-run
`finally:` block. -/
theorem claim_C9_sleep_every_cycle (st : LoopState) (inp : CycleInput) :
    (mainCycle st inp).slept = RETRY_PERIOD ∧ RETRY_PERIOD = 600 :=
  ⟨rfl, rfl⟩

/-! ### C5 -/

/-- C5: for every subset of the three required configuration values that is
missing or empty, `check_tokens` reports exactly the names of the missing
ones and raises (so `main` aborts before any loop cycle); with all three
present it returns `True`. -/
theorem claim_C5_config_check (env : EnvConfig) :
    (∀ s : String, s ∈ missing_tokens env ↔
      ((s = "PRACTICUM_TOKEN" ∧ tokenMissing env.PRACTICUM_TOKEN = true)
        ∨ (s = "TELEGRAM_TOKEN" ∧ tokenMissing env.TELEGRAM_TOKEN = true)
        ∨ (s = "TELEGRAM_CHAT_ID" ∧ tokenMissing env.TELEGRAM_CHAT_ID = true)))
    ∧ (missing_tokens env = [] → check_tokens env = .ok true)
    ∧ (missing_tokens env ≠ [] →
        check_tokens env = .error ⟨.environmentError,
          "Отсутствуют обязательные переменные окружения: "
            ++ String.intercalate ", " (missing_tokens env) ++ "."⟩
        ∧ ∀ (now0 : Int) (inps : List CycleInput),
            mainProgram env now0 inps = .error ⟨.environmentError,
              "Отсутствуют обязательные переменные окружения: "
                ++ String.intercalate ", " (missing_tokens env) ++ "."⟩) := by
  obtain ⟨p, t, c⟩ := env
  refine ⟨?_, ?_, ?_⟩
  · intro s
    by_cases hp : tokenMissing p = true <;> by_cases ht : tokenMissing t = true <;>
      by_cases hc : tokenMissing c = true <;>
        simp [missing_tokens, hp, ht, hc]
  · intro h
    simp [check_tokens, h]
  · intro h
    have hne : (missing_tokens ⟨p, t, c⟩).isEmpty = false := by
      cases hm : missing_tokens ⟨p, t, c⟩ with
      | nil => exact absurd hm h
      | cons x xs => simp
    constructor
    · simp [check_tokens, hne]
    · intro now0 inps
      simp [mainProgram, check_tokens, hne]

/-- Witness for C5: with `TELEGRAM_TOKEN` unset and `TELEGRAM_CHAT_ID`
empty, exactly those two names are reported and startup aborts before the
loop; with all three set, the check returns `True`. -/
theorem claim_C5_config_check_witness :
    (missing_tokens ⟨some "p", Option.none, some ""⟩ = ["TELEGRAM_TOKEN", "TELEGRAM_CHAT_ID"])
    ∧ mainProgram ⟨some "p", Option.none, some ""⟩ 0 [] = .error ⟨.environmentError,
        "Отсутствуют обязательные переменные окружения: TELEGRAM_TOKEN, TELEGRAM_CHAT_ID."⟩
    ∧ check_tokens ⟨some "p", some "t", some "c"⟩ = .ok true := by
  refine ⟨by decide, ?_, ?_⟩
  · have h := (claim_C5_config_check ⟨some "p", Option.none, some ""⟩).2.2 (by decide)
    have h2 := h.2 0 []
    simpa using h2
  · exact (claim_C5_config_check ⟨some "p", some "t", some "c"⟩).2.1 (by decide)

/-! ### C7 -/

/-- C7: the formatter on `{homework_name: "X", status: "approved"}` yields a
string containing both `"X"` and the exact approved-verdict text; on any
record whose `status` string is outside the closed verdict table it raises
(so the unknown status is never passed into any output); on an empty
record it raises. -/
theorem claim_C7_formatter :
    parse_status recX = .ok msgX
    ∧ pyInStr "X" msgX = true
    ∧ pyInStr "Работа проверена: ревьюеру всё понравилось. Ура!" msgX = true
    ∧ (∀ (kvs : List (String × Py)) (s : String),
        dictGet kvs "status" = some (Py.str s) →
        HOMEWORK_VERDICTS.lookup s = Option.none →
        ∃ e, parse_status (Py.dict kvs) = .error e
          ∧ (e.kind = ExcKind.valueError ∨ e.kind = ExcKind.keyError))
    ∧ parse_status (Py.dict []) = .error ⟨.valueError, "Пустой ответ от API Яндекс Домашка."⟩ := by
  refine ⟨rfl, ?_, ?_, ?_, rfl⟩
  · have h : msgX = "Изменился статус проверки работы \"" ++ "X"
        ++ "\". Работа проверена: ревьюеру всё понравилось. Ура!" := rfl
    rw [h]
    exact pyInStr_append _ _ _
  · have h : msgX = ("Изменился статус проверки работы \"X\". "
        ++ "Работа проверена: ревьюеру всё понравилось. Ура!") ++ "" := rfl
    rw [h]
    exact pyInStr_append _ _ _
  · intro kvs s hst hlk
    by_cases htr : Py.truthy (Py.dict kvs) = false
    · exact ⟨⟨.valueError, "Пустой ответ от API Яндекс Домашка."⟩,
        by simp [parse_status, htr], Or.inl rfl⟩
    · refine ⟨⟨.keyError, "Неверный формат данных для домашней работы."⟩, ?_, Or.inr rfl⟩
      have htr' : Py.truthy (Py.dict kvs) = true := by
        revert htr; cases Py.truthy (Py.dict kvs) <;> simp
      simp [parse_status, htr', hst, statusInVerdicts, hlk]

/-- Witness for C7: the record `{homework_name: "X", status: "unknown"}` has
a status outside the verdict table and `parse_status` rejects it. -/
theorem claim_C7_formatter_witness :
    ∃ e, parse_status (Py.dict [("homework_name", Py.str "X"), ("status", Py.str "unknown")])
        = .error e
      ∧ (e.kind = ExcKind.valueError ∨ e.kind = ExcKind.keyError) :=
  claim_C7_formatter.2.2.2.1 [("homework_name", Py.str "X"), ("status", Py.str "unknown")]
    "unknown" rfl rfl

/-! ### C6 -/

/-- C6 counterexample: the non-mapping case and the `homeworks`-not-a-list
case raise the same error kind (`TypeError`), so the three failure cases
are not pairwise distinct kinds as the claim states. -/
theorem claim_C6_counterexample :
    check_response (Py.int 5) = .error ⟨.typeError, "Ожидался словарь с данными API."⟩
    ∧ check_response (Py.dict [("homeworks", Py.int 3), ("current_date", Py.int 1)])
        = .error ⟨.typeError, "Значение под ключом `homeworks` должно быть списком!"⟩
    ∧ (⟨.typeError, "Ожидался словарь с данными API."⟩ : Exc).kind
        = (⟨.typeError, "Значение под ключом `homeworks` должно быть списком!"⟩ : Exc).kind :=
  ⟨rfl, rfl, rfl⟩

/-- C6 amended: the validator rejects every non-mapping input, every mapping
missing `homeworks`, and every mapping (with `current_date` present, which
the code checks first) whose `homeworks` value is not a list; each case is
identifiable by its message, and the missing-key case has a kind
(`KeyError`) distinct from the other two, but the non-mapping and
not-a-list cases share the kind `TypeError` and differ only in message. -/
theorem claim_C6_amended :
    (∀ v : Py, (∀ kvs, v ≠ Py.dict kvs) →
      check_response v = .error ⟨.typeError, "Ожидался словарь с данными API."⟩)
    ∧ (∀ kvs : List (String × Py), dictGet kvs "homeworks" = Option.none →
        check_response (Py.dict kvs)
          = .error ⟨.keyError, "Обязательный ключ `homeworks` отсутсвует в словаре API."⟩)
    ∧ (∀ (kvs : List (String × Py)) (v : Py),
        dictGet kvs "homeworks" = some v → (∀ xs, v ≠ Py.list xs) →
        (dictGet kvs "current_date").isNone = false →
        check_response (Py.dict kvs)
          = .error ⟨.typeError, "Значение под ключом `homeworks` должно быть списком!"⟩)
    ∧ ExcKind.keyError ≠ ExcKind.typeError
    ∧ ("Ожидался словарь с данными API." : String)
        ≠ "Значение под ключом `homeworks` должно быть списком!" := by
  refine ⟨?_, ?_, ?_, by decide, by decide⟩
  · intro v hv
    cases v with
    | dict kvs => exact absurd rfl (hv kvs)
    | int i => rfl
    | str s => rfl
    | list xs => rfl
    | none => rfl
  · intro kvs h
    simp [check_response, h]
  · intro kvs v hhw hnl hcd
    cases v with
    | list xs => exact absurd rfl (hnl xs)
    | int i => simp [check_response, hhw, hcd]
    | str s => simp [check_response, hhw, hcd]
    | dict kvs2 => simp [check_response, hhw, hcd]
    | none => simp [check_response, hhw, hcd]

/-- Witness for C6 amended: a non-dict, a dict without `homeworks`, and a
dict whose `homeworks` is an int are each rejected as characterized. -/
theorem claim_C6_amended_witness :
    check_response (Py.str "nope") = .error ⟨.typeError, "Ожидался словарь с данными API."⟩
    ∧ check_response (Py.dict [("current_date", Py.int 1)])
        = .error ⟨.keyError, "Обязательный ключ `homeworks` отсутсвует в словаре API."⟩
    ∧ check_response (Py.dict [("homeworks", Py.int 3), ("current_date", Py.int 1)])
        = .error ⟨.typeError, "Значение под ключом `homeworks` должно быть списком!"⟩ :=
  ⟨claim_C6_amended.1 (Py.str "nope") (fun kvs h => by cases h),
    claim_C6_amended.2.1 [("current_date", Py.int 1)] rfl,
    claim_C6_amended.2.2.1 [("homeworks", Py.int 3), ("current_date", Py.int 1)] (Py.int 3)
      rfl (fun xs h => by cases h) rfl⟩

/-! ### C1 -/

/-- A cycle input delivering `respX 1700000100` whose homework send fails
with an `ApiException`. -/
def inpFailSend : CycleInput :=
  ⟨.response 200 (some (respX 1700000100)), .apiException "boom", .ok, 42⟩

/-- C1 counterexample: a cycle whose delivery fails (the send attempt's
outcome is an `ApiException`) still advances the cursor to the response's
`current_date`, so the next poll does not re-fetch the same window: the
notifier swallows its failures and the loop cannot observe them. -/
theorem claim_C1_counterexample :
    (mainCycle stA inpFailSend).homeworkSends = [⟨msgX, SendOutcome.apiException "boom"⟩]
    ∧ (mainCycle stA inpFailSend).state.timestamp = Py.int 1700000100
    ∧ stA.timestamp = Py.int 1700000000
    ∧ Py.int 1700000100 ≠ Py.int 1700000000 := by
  refine ⟨rfl, rfl, rfl, ?_⟩
  intro h
  injection h with h'
  exact absurd h' (by decide)

/-- C1 amended: the cursor does not track the delivery outcome, which is
invisible to the loop: every successful cycle that reaches the
send-or-skip step sets the next cursor to the response's `current_date`,
whatever the send outcome was, and every cycle whose `try:` block raises
leaves the cursor unchanged, whatever the diagnostic send outcome was. -/
theorem claim_C1_amended :
    (∀ (st : LoopState) (inp : CycleInput) (kvs : List (String × Py))
        (hw : Py) (hws : List Py) (cd : Py) (m : String),
        inp.http = HttpResult.response 200 (some (Py.dict kvs)) →
        dictGet kvs "homeworks" = some (Py.list (hw :: hws)) →
        dictGet kvs "current_date" = some cd →
        parse_status hw = .ok m →
        (mainCycle st inp).state.timestamp = cd)
    ∧ (∀ (st : LoopState) (inp : CycleInput) (e : Exc),
        tryBody st inp = .error e →
        (mainCycle st inp).state.timestamp = st.timestamp) := by
  constructor
  · intro st inp kvs hw hws cd m hhttp hhw hcd hm
    have hb := tryBody_success st inp kvs hw hws cd m hhttp hhw hcd hm
    by_cases hin : pyInStr m st.sended_message = true
    · rw [if_pos hin] at hb
      rw [mainCycle_ok st inp _ hb]
    · rw [Bool.not_eq_true] at hin
      rw [if_neg (by simp [hin])] at hb
      rw [mainCycle_ok st inp _ hb]
  · intro st inp e he
    by_cases hk : e.kind = ExcKind.apiTelegramException
    · simp [mainCycle, he, hk]
    · by_cases hin : pyInStr (diagMsg e) st.sended_message = true
      · rw [mainCycle_error_dup st inp e he hk hin]
      · rw [Bool.not_eq_true] at hin
        rw [mainCycle_error_fresh st inp e he hk hin]

/-- Witness for C1 amended: the failed-delivery cycle of the counterexample
advances the cursor to `current_date = 1700000100`. -/
theorem claim_C1_amended_witness :
    (mainCycle stA inpFailSend).state.timestamp = Py.int 1700000100 :=
  claim_C1_amended.1 stA inpFailSend (respKvs 1700000100) recX [] (Py.int 1700000100) msgX
    rfl rfl rfl rfl

/-! ### C2 -/

/-- A first-cycle input whose transport error text happens to contain the
later homework message, poisoning the dedup state. -/
def inpPoison : CycleInput := ⟨.requestException msgX, .ok, .ok, 3⟩

/-- The diagnostic text sent after `inpPoison`'s transport failure. -/
def c10D : String :=
  diagMsg ⟨.connectionError, "Ошибка запроса к API. Получена ошибка: " ++ msgX ++ "."⟩

/-- A cycle input delivering `respX 1700000100` with successful sends. -/
def inpOkSend : CycleInput := ⟨.response 200 (some (respX 1700000100)), .ok, .ok, 42⟩

/-- C2 counterexample: from the reachable state left by `inpPoison` (whose
diagnostic `c10D` contains `msgX` as a proper substring), a successful
cycle formats `msgX`, which is distinct from the last-sent text, yet no
delivery is attempted and nothing is recorded: the trigger is Python's
substring `in`, not distinctness. -/
theorem claim_C2_counterexample :
    (mainCycle ⟨"", Py.int 0⟩ inpPoison).state.sended_message = c10D
    ∧ (mainCycle ⟨"", Py.int 0⟩ inpPoison).state.timestamp = Py.int 0
    ∧ msgX ≠ c10D
    ∧ parse_status recX = .ok msgX
    ∧ (mainCycle ⟨c10D, Py.int 0⟩ inpOkSend).homeworkSends = []
    ∧ (mainCycle ⟨c10D, Py.int 0⟩ inpOkSend).state.sended_message = c10D := by
  exact ⟨rfl, rfl, by decide, rfl, rfl, rfl⟩

/-- C2 amended: for every successful cycle whose formatted message is not a
substring of the last-sent text, a delivery is attempted and, after the
attempt (whether or not it succeeded), the message is recorded as the new
last-sent text and the cursor advances to the response's `current_date`
(always present here, since validation already required it). -/
theorem claim_C2_amended (st : LoopState) (inp : CycleInput) (kvs : List (String × Py))
    (hw : Py) (hws : List Py) (cd : Py) (m : String)
    (hhttp : inp.http = HttpResult.response 200 (some (Py.dict kvs)))
    (hhw : dictGet kvs "homeworks" = some (Py.list (hw :: hws)))
    (hcd : dictGet kvs "current_date" = some cd)
    (hm : parse_status hw = .ok m)
    (hfresh : pyInStr m st.sended_message = false) :
    (mainCycle st inp).homeworkSends = [⟨m, inp.sendOutcome⟩]
    ∧ (mainCycle st inp).state.sended_message = m
    ∧ (mainCycle st inp).state.timestamp = cd := by
  have hb := tryBody_success st inp kvs hw hws cd m hhttp hhw hcd hm
  rw [if_neg (by simp [hfresh])] at hb
  rw [mainCycle_ok st inp _ hb]
  exact ⟨rfl, rfl, rfl⟩

/-- Witness for C2 amended: from a fresh state the formatted message is
attempted (here with a failing outcome), recorded, and the cursor
advances. -/
theorem claim_C2_amended_witness :
    (mainCycle stA inpFailSend).homeworkSends = [⟨msgX, SendOutcome.apiException "boom"⟩]
    ∧ (mainCycle stA inpFailSend).state.sended_message = msgX
    ∧ (mainCycle stA inpFailSend).state.timestamp = Py.int 1700000100 :=
  claim_C2_amended stA inpFailSend (respKvs 1700000100) recX [] (Py.int 1700000100) msgX
    rfl rfl rfl rfl (by decide)

/-! ### C3 -/

/-- A cycle input delivering `respX 1700000200` with successful sends. -/
def inpOkSend2 : CycleInput := ⟨.response 200 (some (respX 1700000200)), .ok, .ok, 43⟩

/-- A cycle input delivering `respX 1700000300` with successful sends. -/
def inpOkSend3 : CycleInput := ⟨.response 200 (some (respX 1700000300)), .ok, .ok, 44⟩

/-- C3 counterexample: after `msgX` has already been delivered once, two
further consecutive successful polls both formatting `msgX` make zero
delivery attempts, not exactly one; the pair is part of a reachable
execution (three identical polls in a row). -/
theorem claim_C3_counterexample :
    (mainCycle stA inpOkSend).state.sended_message = msgX
    ∧ parse_status recX = .ok msgX
    ∧ ((runCycles (mainCycle stA inpOkSend).state [inpOkSend2, inpOkSend3]).2.map
        CycleOutput.homeworkSends) = [[], []]
    ∧ (runCycles (mainCycle stA inpOkSend).state [inpOkSend2, inpOkSend3]).1.timestamp
        = Py.int 1700000300 :=
  ⟨rfl, rfl, rfl, rfl⟩

/-- C3 amended: when the common formatted message is not already a substring
of the last-sent text, two consecutive successful polls formatting the
same message make exactly one delivery attempt — the first sends, the
second skips — and the suppressed cycle still advances the cursor to its
response's `current_date`. -/
theorem claim_C3_amended (st : LoopState) (inp₁ inp₂ : CycleInput)
    (kvs₁ kvs₂ : List (String × Py)) (hw₁ hw₂ : Py) (hws₁ hws₂ : List Py)
    (cd₁ cd₂ : Py) (m : String)
    (hhttp₁ : inp₁.http = HttpResult.response 200 (some (Py.dict kvs₁)))
    (hhw₁ : dictGet kvs₁ "homeworks" = some (Py.list (hw₁ :: hws₁)))
    (hcd₁ : dictGet kvs₁ "current_date" = some cd₁)
    (hm₁ : parse_status hw₁ = .ok m)
    (hhttp₂ : inp₂.http = HttpResult.response 200 (some (Py.dict kvs₂)))
    (hhw₂ : dictGet kvs₂ "homeworks" = some (Py.list (hw₂ :: hws₂)))
    (hcd₂ : dictGet kvs₂ "current_date" = some cd₂)
    (hm₂ : parse_status hw₂ = .ok m)
    (hfresh : pyInStr m st.sended_message = false) :
    (mainCycle st inp₁).homeworkSends = [⟨m, inp₁.sendOutcome⟩]
    ∧ (mainCycle (mainCycle st inp₁).state inp₂).homeworkSends = []
    ∧ (mainCycle (mainCycle st inp₁).state inp₂).state.timestamp = cd₂ := by
  have hb₁ := tryBody_success st inp₁ kvs₁ hw₁ hws₁ cd₁ m hhttp₁ hhw₁ hcd₁ hm₁
  rw [if_neg (by simp [hfresh])] at hb₁
  have h1 := mainCycle_ok st inp₁ _ hb₁
  rw [h1]
  have hb₂ := tryBody_success ⟨m, cd₁⟩ inp₂ kvs₂ hw₂ hws₂ cd₂ m hhttp₂ hhw₂ hcd₂ hm₂
  rw [if_pos (pyInStr_self m)] at hb₂
  have h2 := mainCycle_ok ⟨m, cd₁⟩ inp₂ _ hb₂
  exact ⟨rfl, by rw [h2], by rw [h2]⟩

/-- Witness for C3 amended: two consecutive polls of `respX` from a fresh
state: one attempt, then a suppressed cycle that still advances the
cursor to `1700000200`. -/
theorem claim_C3_amended_witness :
    (mainCycle stA inpOkSend).homeworkSends = [⟨msgX, SendOutcome.ok⟩]
    ∧ (mainCycle (mainCycle stA inpOkSend).state inpOkSend2).homeworkSends = []
    ∧ (mainCycle (mainCycle stA inpOkSend).state inpOkSend2).state.timestamp
        = Py.int 1700000200 :=
  claim_C3_amended stA inpOkSend inpOkSend2 (respKvs 1700000100) (respKvs 1700000200)
    recX recX [] [] (Py.int 1700000100) (Py.int 1700000200) msgX
    rfl rfl rfl rfl rfl rfl rfl rfl (by decide)

/-! ### C4 -/

/-- The exception `check_response` raises on an empty `homeworks` list. -/
def emptyListExc : Exc := ⟨.valueError, "Список домашек пуст."⟩

/-- C4: on every response that is a dict with an empty `homeworks` list (and
`current_date` present), no homework delivery is attempted and the code
follows exactly the raise-a-logged-deduplicated-error policy: the cycle
raises the empty-list `ValueError` internally, logs its diagnostic,
leaves the cursor unchanged, reports the diagnostic to the chat on first
occurrence and suppresses the report on an identical following cycle. -/
theorem claim_C4_empty_list (st : LoopState) (inp : CycleInput)
    (kvs : List (String × Py)) (cd : Py)
    (hhttp : inp.http = HttpResult.response 200 (some (Py.dict kvs)))
    (hhw : dictGet kvs "homeworks" = some (Py.list []))
    (hcd : dictGet kvs "current_date" = some cd) :
    tryBody st inp = .error emptyListExc
    ∧ (mainCycle st inp).homeworkSends = []
    ∧ (mainCycle st inp).state.timestamp = st.timestamp
    ∧ (⟨.error, diagMsg emptyListExc⟩ : LogEvent) ∈ (mainCycle st inp).logs
    ∧ (pyInStr (diagMsg emptyListExc) st.sended_message = false →
        (mainCycle st inp).diagSends = [⟨diagMsg emptyListExc, inp.diagSendOutcome⟩]
        ∧ (mainCycle (mainCycle st inp).state inp).diagSends = []) := by
  have he := tryBody_empty_list st inp kvs cd hhttp hhw hcd
  have hk : emptyListExc.kind ≠ ExcKind.apiTelegramException := by decide
  by_cases hin : pyInStr (diagMsg emptyListExc) st.sended_message = true
  · rw [mainCycle_error_dup st inp emptyListExc he hk hin]
    refine ⟨he, rfl, rfl, by simp, ?_⟩
    intro hf
    rw [hf] at hin
    exact absurd hin (by simp)
  · rw [Bool.not_eq_true] at hin
    rw [mainCycle_error_fresh st inp emptyListExc he hk hin]
    refine ⟨he, rfl, rfl, by simp, ?_⟩
    intro _
    refine ⟨rfl, ?_⟩
    have he₂ := tryBody_empty_list ⟨diagMsg emptyListExc, st.timestamp⟩ inp kvs cd hhttp hhw hcd
    rw [mainCycle_error_dup _ inp emptyListExc he₂ hk (pyInStr_self _)]

/-- A cycle input delivering the empty-homeworks response of the spec's
end-to-end scenario. -/
def inpEmpty : CycleInput :=
  ⟨.response 200 (some (Py.dict [("homeworks", Py.list []),
    ("current_date", Py.int 1700000200)])), .ok, .apiException "tg", 7⟩

/-- Witness for C4: the scenario response
`{"homeworks": [], "current_date": 1700000200}` from a fresh state. -/
theorem claim_C4_empty_list_witness :
    (mainCycle stA inpEmpty).homeworkSends = []
    ∧ (mainCycle stA inpEmpty).state.timestamp = stA.timestamp
    ∧ (mainCycle stA inpEmpty).diagSends
        = [⟨diagMsg emptyListExc, SendOutcome.apiException "tg"⟩]
    ∧ (mainCycle (mainCycle stA inpEmpty).state inpEmpty).diagSends = [] := by
  have h := claim_C4_empty_list stA inpEmpty
    [("homeworks", Py.list []), ("current_date", Py.int 1700000200)]
    (Py.int 1700000200) rfl rfl rfl
  have hf := h.2.2.2.2 (by decide)
  exact ⟨h.2.1, h.2.2.1, hf.1, hf.2⟩

/-! ### C8 -/

/-- The `ConnectionError` wrapping a transport failure with text `emsg`. -/
def connExc (emsg : String) : Exc :=
  ⟨.connectionError, "Ошибка запроса к API. Получена ошибка: " ++ emsg ++ "."⟩

/-- C8: a transport failure on fetch is caught: the diagnostic is logged and
its delivery attempted once (not again on an identical next cycle), the
cursor stays unchanged, the cycle still reaches the sleep, and a failure
of the diagnostic delivery itself changes nothing observable but the
logs — it never escapes as an unhandled fault. -/
theorem claim_C8_transport_failure (st : LoopState) (inp : CycleInput) (emsg : String)
    (hhttp : inp.http = HttpResult.requestException emsg)
    (hfresh : pyInStr (diagMsg (connExc emsg)) st.sended_message = false) :
    (mainCycle st inp).homeworkSends = []
    ∧ (mainCycle st inp).diagSends = [⟨diagMsg (connExc emsg), inp.diagSendOutcome⟩]
    ∧ (⟨.error, diagMsg (connExc emsg)⟩ : LogEvent) ∈ (mainCycle st inp).logs
    ∧ (mainCycle st inp).state.timestamp = st.timestamp
    ∧ (mainCycle st inp).slept = RETRY_PERIOD
    ∧ (mainCycle (mainCycle st inp).state inp).diagSends = []
    ∧ (mainCycle (mainCycle st inp).state inp).state = (mainCycle st inp).state
    ∧ ∀ d : SendOutcome,
        (mainCycle st ⟨inp.http, inp.sendOutcome, d, inp.now⟩).state
          = (mainCycle st inp).state := by
  have he : tryBody st inp = .error (connExc emsg) := tryBody_fetch_error st inp emsg hhttp
  have hk : (connExc emsg).kind ≠ ExcKind.apiTelegramException := by
    intro h
    cases h
  rw [mainCycle_error_fresh st inp _ he hk hfresh]
  have he₂ : tryBody ⟨diagMsg (connExc emsg), st.timestamp⟩ inp = .error (connExc emsg) :=
    tryBody_fetch_error _ inp emsg hhttp
  rw [mainCycle_error_dup _ inp _ he₂ hk (pyInStr_self _)]
  refine ⟨rfl, rfl, by simp, rfl, rfl, rfl, rfl, ?_⟩
  intro d
  have he₃ : tryBody st ⟨inp.http, inp.sendOutcome, d, inp.now⟩ = .error (connExc emsg) :=
    tryBody_fetch_error st _ emsg hhttp
  rw [mainCycle_error_fresh st _ _ he₃ hk hfresh]

/-- A cycle input whose fetch fails with a transport error and whose
diagnostic delivery also fails. -/
def inpNet : CycleInput := ⟨.requestException "timeout", .ok, .apiException "tg down", 9⟩

/-- Witness for C8: a concrete transport failure from a fresh state: one
diagnostic attempt (itself failing, harmlessly), cursor unchanged, and no
second attempt on the identical next cycle. -/
theorem claim_C8_transport_failure_witness :
    (mainCycle stA inpNet).homeworkSends = []
    ∧ (mainCycle stA inpNet).diagSends
        = [⟨diagMsg (connExc "timeout"), SendOutcome.apiException "tg down"⟩]
    ∧ (mainCycle stA inpNet).state.timestamp = stA.timestamp
    ∧ (mainCycle (mainCycle stA inpNet).state inpNet).diagSends = [] := by
  have h := claim_C8_transport_failure stA inpNet "timeout" rfl (by decide)
  exact ⟨h.1, h.2.1, h.2.2.2.1, h.2.2.2.2.2.1⟩

/-! ### C10 -/

/-- The poisoning diagnostic `c10D` contains the homework message `msgX`. -/
lemma msgX_in_c10D : pyInStr msgX c10D = true := by
  have h : c10D = "Сбой в работе программы: Ошибка запроса к API. Получена ошибка: "
      ++ msgX ++ "." := rfl
  rw [h]
  exact pyInStr_append _ _ _

/-- C10: the loop keeps exactly one last-sent string, initialized empty and
shared by homework and diagnostic messages; a candidate of either kind is
suppressed exactly when it occurs as a substring of that string; and in
the concrete execution where a transport-error diagnostic happens to
contain the upcoming homework message, that message — though never
delivered — is suppressed on every subsequent cycle. -/
theorem claim_C10_shared_substring_dedup :
    (∀ (env : EnvConfig) (now0 : Int) (inps : List CycleInput),
        check_tokens env = .ok true →
        mainProgram env now0 inps = .ok (runCycles ⟨"", Py.int now0⟩ inps))
    ∧ (∀ (st : LoopState) (inp : CycleInput) (kvs : List (String × Py))
          (hw : Py) (hws : List Py) (cd : Py) (m : String),
        inp.http = HttpResult.response 200 (some (Py.dict kvs)) →
        dictGet kvs "homeworks" = some (Py.list (hw :: hws)) →
        dictGet kvs "current_date" = some cd →
        parse_status hw = .ok m →
        (mainCycle st inp).homeworkSends
          = if pyInStr m st.sended_message then [] else [⟨m, inp.sendOutcome⟩])
    ∧ (∀ (st : LoopState) (inp : CycleInput) (e : Exc),
        tryBody st inp = .error e → e.kind ≠ ExcKind.apiTelegramException →
        (mainCycle st inp).diagSends
          = if pyInStr (diagMsg e) st.sended_message then []
            else [⟨diagMsg e, inp.diagSendOutcome⟩])
    ∧ pyInStr msgX c10D = true
    ∧ msgX ≠ c10D
    ∧ (mainCycle ⟨"", Py.int 0⟩ inpPoison).state = ⟨c10D, Py.int 0⟩
    ∧ ∀ n : Nat,
        ((runCycles ⟨c10D, Py.int 0⟩ (List.replicate n inpOkSend)).2.map
          CycleOutput.homeworkSends) = List.replicate n [] := by
  refine ⟨?_, ?_, ?_, msgX_in_c10D, by decide, rfl, ?_⟩
  · intro env now0 inps h
    simp [mainProgram, h]
  · intro st inp kvs hw hws cd m hhttp hhw hcd hm
    have hb := tryBody_success st inp kvs hw hws cd m hhttp hhw hcd hm
    by_cases hin : pyInStr m st.sended_message = true
    · rw [if_pos hin] at hb
      rw [mainCycle_ok st inp _ hb, if_pos hin]
    · rw [Bool.not_eq_true] at hin
      rw [if_neg (by simp [hin])] at hb
      rw [mainCycle_ok st inp _ hb, if_neg (by simp [hin])]
  · intro st inp e he hk
    by_cases hin : pyInStr (diagMsg e) st.sended_message = true
    · rw [mainCycle_error_dup st inp e he hk hin, if_pos hin]
    · rw [Bool.not_eq_true] at hin
      rw [mainCycle_error_fresh st inp e he hk hin, if_neg (by simp [hin])]
  · suffices h : ∀ (n : Nat) (ts : Py),
        ((runCycles ⟨c10D, ts⟩ (List.replicate n inpOkSend)).2.map
          CycleOutput.homeworkSends) = List.replicate n [] from fun n => h n (Py.int 0)
    intro n
    induction n with
    | zero => intro ts; rfl
    | succ k ih =>
      intro ts
      have hb := tryBody_success ⟨c10D, ts⟩ inpOkSend (respKvs 1700000100) recX []
        (Py.int 1700000100) msgX rfl rfl rfl rfl
      rw [if_pos msgX_in_c10D] at hb
      have hstep := mainCycle_ok ⟨c10D, ts⟩ inpOkSend _ hb
      rw [List.replicate_succ]
      simp only [runCycles, hstep]
      simp [ih (Py.int 1700000100), List.replicate_succ]

/-- Witness for C10: startup with all tokens present initializes the shared
string to empty, and a fresh state attempts the homework message exactly
because it is not a substring of the (empty) last-sent string. -/
theorem claim_C10_shared_substring_dedup_witness :
    mainProgram ⟨some "p", some "t", some "c"⟩ 0 [] = .ok (runCycles ⟨"", Py.int 0⟩ [])
    ∧ (mainCycle stA inpOkSend).homeworkSends
        = (if pyInStr msgX stA.sended_message then [] else [⟨msgX, SendOutcome.ok⟩]) := by
  constructor
  · exact claim_C10_shared_substring_dedup.1 ⟨some "p", some "t", some "c"⟩ 0 [] rfl
  · exact claim_C10_shared_substring_dedup.2.1 stA inpOkSend (respKvs 1700000100) recX []
      (Py.int 1700000100) msgX rfl rfl rfl rfl
